import Mathlib

/-!
# Verification of the CSV normalization / time-based chunking engine

Shallow embedding of the core pipeline of this repository
(the CSV-processing module: record reading, column normalization,
timestamp reconciliation, time-based chunking, per-chunk statistics and
flattened metadata, and the dataset-level summary), together with proofs
and refutations of the specification's claims about it.

Conventions of the embedding:
* pandas `Timestamp` values are modelled by the structure `TS`
  (calendar date plus time of day); differences between timestamps are
  taken on `toSec`, the number of seconds since the civil epoch
  (Gregorian calendar, Howard Hinnant's `days_from_civil` algorithm,
  which is exactly what an instant-based timestamp difference computes).
* A DataFrame is modelled by `PTable`: the list of column names that are
  present (`cols`), whether the `timestamp` column has datetime64 dtype
  (`tsIsDatetime`), and the rows.  A row always carries every field of a
  `SensorRecord`; fields whose column is not in `cols` are meaningless
  placeholders until normalization adds the column.
* The `timestamp` cell of a row is a `TsCell`: either a parsed datetime
  (`dt (some t)`), a missing/NaT datetime (`dt none`), or a raw string
  not yet parsed (`raw s`), matching an object-dtype column.
* Fallible parsing (Python `float(...)` / `int(...)` and the generic
  `pd.to_datetime(..., errors=the-coerce-mode)`) is modelled by explicit
  parser parameters of type `String -> Option _`; a `none` result models
  the `ValueError` (row skipped) or `NaT` outcome.
* A Python function that can raise an exception observed by a caller is
  modelled in the `Except` monad; a caught exception turns into `none`
  exactly where the source catches it.
-/

/-- A calendar timestamp: year, month, day, hour, minute, second.
Models a pandas `Timestamp`. -/
structure TS where
  y : Nat
  mo : Nat
  d : Nat
  h : Nat
  mi : Nat
  s : Nat
deriving DecidableEq, Repr

instance : Inhabited TS := ⟨⟨1900, 1, 1, 0, 0, 0⟩⟩

/-- Civil-calendar day number (days since 1970-01-01) following the standard
era-based algorithm; Lean's `Int` division truncates toward zero exactly like
the C/C++ division the algorithm was designed for. -/
def daysFromCivil (y m d : Int) : Int :=
  let yAdj : Int := if m ≤ 2 then y - 1 else y
  let era : Int := (if 0 ≤ yAdj then yAdj else yAdj - 399) / 400
  let yoe : Int := yAdj - era * 400
  let mp : Int := (m + 9) % 12
  let doy : Int := (153 * mp + 2) / 5 + d - 1
  let doe : Int := yoe * 365 + yoe / 4 - yoe / 100 + doy
  era * 146097 + doe - 719468

/-- Seconds-since-epoch linearization of a timestamp; differences of pandas
timestamps are differences of this value. -/
def toSec (t : TS) : Int :=
  daysFromCivil t.y t.mo t.d * 86400 + t.h * 3600 + t.mi * 60 + t.s

/-- The timestamp cell of a row: a parsed datetime (possibly NaT), or a raw
string in an object-dtype column. -/
inductive TsCell where
  | dt (t : Option TS)
  | raw (s : String)
deriving DecidableEq, Repr

/-- One sensor reading, with every column the pipeline knows about.
Numeric sensor fields are rationals (Python floats carrying exact CSV
values), `rssi` is an integer, and `charging` is kept as the string the
source code stores (the code compares it against string literals). -/
structure SensorRecord where
  timestamp : TsCell
  temperature : ℚ
  humidity : ℚ
  pressure : ℚ
  battery : ℚ
  power_source : String
  charging : String
  interval : Int
  uptime : Int
  rssi : Int
  snr : ℚ
deriving DecidableEq, Repr

/-- A DataFrame: present columns, dtype flag of the timestamp column, rows. -/
structure PTable where
  cols : List String
  tsIsDatetime : Bool
  rows : List SensorRecord
deriving DecidableEq, Repr

/-- Result of `pd.DataFrame()`: no columns, no rows. -/
def emptyPTable : PTable := ⟨[], false, []⟩

/-- The timestamp of a record whose cell has been reconciled; rows that reach
the statistics stage always satisfy this, the default is never observed. -/
def tsOf (r : SensorRecord) : TS :=
  match r.timestamp with
  | .dt (some t) => t
  | _ => default

/-- Sort/difference key used by the chunker: the instant of the record. -/
def key (r : SensorRecord) : Int := toSec (tsOf r)

/-- `r₁` comes no later than `r₂` (the chunker's sort order). -/
def recLE (a b : SensorRecord) : Prop := key a ≤ key b

instance : DecidableRel recLE := fun a b => by unfold recLE; infer_instance

instance : IsTotal SensorRecord recLE := ⟨fun a b => Int.le_total (key a) (key b)⟩

instance : IsTrans SensorRecord recLE := ⟨fun _ _ _ h₁ h₂ => le_trans h₁ h₂⟩

/-- A NaT timestamp cell (dropped by `dropna`). -/
def isNaTCell : TsCell → Bool
  | .dt none => true
  | _ => false

/-! ## Timestamp reconciliation (`extract_date_from_filename`,
`combine_date_and_time`) -/

/-- Two-digit number from two characters, when both are digits. -/
def digits2 (a b : Char) : Option Nat :=
  if a.isDigit && b.isDigit then some ((a.toNat - 48) * 10 + (b.toNat - 48))
  else none

/-- Four-digit number from four characters, when all are digits. -/
def digits4 (a b c d : Char) : Option Nat :=
  if a.isDigit && b.isDigit && c.isDigit && d.isDigit then
    some ((a.toNat - 48) * 1000 + (b.toNat - 48) * 100 + (c.toNat - 48) * 10
      + (d.toNat - 48))
  else none

/-- Gregorian leap year. -/
def isLeap (y : Nat) : Bool :=
  y % 4 == 0 && (y % 100 != 0 || y % 400 == 0)

/-- Days in a month (pandas validates calendar dates when parsing). -/
def daysInMonth (y m : Nat) : Nat :=
  if m = 2 then (if isLeap y then 29 else 28)
  else if m = 4 ∨ m = 6 ∨ m = 9 ∨ m = 11 then 30
  else 31

/-- Build a validated timestamp from numeric components. -/
def mkValidTS (y mo d h mi s : Nat) : Option TS :=
  if 1 ≤ mo ∧ mo ≤ 12 ∧ 1 ≤ d ∧ d ≤ daysInMonth y mo ∧ h < 24 ∧ mi < 60 ∧ s < 60
  then some ⟨y, mo, d, h, mi, s⟩ else none

/-- Strict parse with format `%Y-%m-%d %H:%M:%S` (the format string used by
`combine_date_and_time`); any mismatch yields `none`, which models the NaT
produced by `errors='coerce'`. -/
def parseDateTime (str : String) : Option TS :=
  match str.toList with
  | [y1, y2, y3, y4, '-', m1, m2, '-', d1, d2, ' ', h1, h2, ':', n1, n2, ':', s1, s2] =>
    match digits4 y1 y2 y3 y4, digits2 m1 m2, digits2 d1 d2,
        digits2 h1 h2, digits2 n1 n2, digits2 s1 s2 with
    | some y, some mo, some d, some h, some mi, some s => mkValidTS y mo d h mi s
    | _, _, _, _, _, _ => none
  | _ => none

/-- Strict parse with format `%H:%M:%S`; `strptime`-style parsing anchors the
missing date components at 1900-01-01. -/
def parseTimeOnly (str : String) : Option TS :=
  match str.toList with
  | [h1, h2, ':', n1, n2, ':', s1, s2] =>
    match digits2 h1 h2, digits2 n1 n2, digits2 s1 s2 with
    | some h, some mi, some s =>
      if h < 24 ∧ mi < 60 ∧ s < 60 then some ⟨1900, 1, 1, h, mi, s⟩ else none
    | _, _, _ => none
  | _ => none

/-- Does the character list start with the 10-character pattern
`dddd-dd-dd` (the regex of `extract_date_from_filename`)? -/
def matchesDate10 : List Char → Bool
  | a :: b :: c :: d :: e :: f :: g :: h :: i :: j :: _ =>
    a.isDigit && b.isDigit && c.isDigit && d.isDigit && e == '-' &&
    f.isDigit && g.isDigit && h == '-' && i.isDigit && j.isDigit
  | _ => false

/-- Leftmost occurrence of the date pattern, as `re.search` finds it: the
pattern has fixed width, so scanning start positions left to right agrees
with the regex engine. -/
def scanDate : List Char → Option String
  | [] => none
  | a :: t =>
    if matchesDate10 (a :: t) then some (String.mk ((a :: t).take 10))
    else scanDate t

/-- `os.path.basename` on a POSIX path: everything after the last slash. -/
def basename (p : String) : String :=
  String.mk ((p.toList.reverse.takeWhile fun c => c ≠ '/').reverse)

/-- `extract_date_from_filename`: search the base name for `dddd-dd-dd` and
return the matched substring. -/
def extractDateFromFilename (filepath : String) : Option String :=
  scanDate (basename filepath).toList

/-- The string a timestamp cell shows under `.astype(str)` (the cell is a raw
string on every reachable call; the other branches are for totality). -/
def cellStr : TsCell → String
  | .raw s => s
  | .dt none => "NaT"
  | .dt (some _) => "ts"

/-- Reconcile one timestamp cell with the file-level date, as
`combine_date_and_time` does column-wise: with a date, parse
`date ++ " " ++ cell` with format `%Y-%m-%d %H:%M:%S`; without one, parse the
cell as time-only (anchored at 1900-01-01).  Either way the column becomes
datetime dtype and failures become NaT. -/
def combineCell (dateStr : Option String) (c : TsCell) : TsCell :=
  match dateStr with
  | some ds => .dt (parseDateTime (ds ++ " " ++ cellStr c))
  | none => .dt (parseTimeOnly (cellStr c))

/-- `combine_date_and_time`.  Accessing `df['timestamp']` on a frame without
that column raises `KeyError`, modelled as `Except.error`. -/
def combineDateAndTime (dateStr : Option String) (df : PTable) :
    Except Unit PTable :=
  if df.cols.contains "timestamp" then
    .ok { df with tsIsDatetime := true,
                  rows := df.rows.map fun r =>
                    { r with timestamp := combineCell dateStr r.timestamp } }
  else .error ()

/-! ## Column normalization (`normalize_csv_columns`) -/

/-- The five required columns. -/
def requiredColumns : List String :=
  ["timestamp", "temperature", "humidity", "pressure", "battery"]

/-- All columns the pipeline produces. -/
def allColumns : List String :=
  ["timestamp", "temperature", "humidity", "pressure", "battery",
   "power_source", "charging", "interval", "uptime", "rssi", "snr"]

/-- Python `str.strip()`: drop whitespace from both ends (implemented on
the character list so that it evaluates by reduction). -/
def pyStrip (s : String) : String :=
  String.mk
    (((s.toList.dropWhile Char.isWhitespace).reverse.dropWhile
      Char.isWhitespace).reverse)

/-- Canonicalize one charging value, as the lambda inside
`normalize_csv_columns` does (`str(x).strip()` against the truthy list). -/
def canonChargingVal (s : String) : String :=
  if ["1", "Y", "y", "yes", "Yes", "YES", "True", "true"].contains (pyStrip s)
  then "Y" else "N"

/-- `normalize_csv_columns`: empty frame if a required column is missing,
otherwise add each missing optional column with its default (in source
order) and canonicalize an existing charging column. -/
def normalizeCsvColumns (df : PTable) : PTable :=
  if requiredColumns.all (fun c => df.cols.contains c) then
    let df1 : PTable :=
      if df.cols.contains "power_source" then df
      else if df.cols.contains "charging" then
        { df with cols := df.cols ++ ["power_source"],
                  rows := df.rows.map fun r => { r with power_source := "Solar" } }
      else
        { df with cols := df.cols ++ ["power_source"],
                  rows := df.rows.map fun r => { r with power_source := "Unknown" } }
    let df2 : PTable :=
      if df1.cols.contains "rssi" then df1
      else { df1 with cols := df1.cols ++ ["rssi"],
                      rows := df1.rows.map fun r => { r with rssi := 0 } }
    let df3 : PTable :=
      if df2.cols.contains "snr" then df2
      else { df2 with cols := df2.cols ++ ["snr"],
                      rows := df2.rows.map fun r => { r with snr := 0 } }
    let df4 : PTable :=
      if df3.cols.contains "charging" then
        { df3 with rows := df3.rows.map fun r =>
            { r with charging := canonChargingVal r.charging } }
      else { df3 with cols := df3.cols ++ ["charging"],
                      rows := df3.rows.map fun r => { r with charging := "N" } }
    let df5 : PTable :=
      if df4.cols.contains "interval" then df4
      else { df4 with cols := df4.cols ++ ["interval"],
                      rows := df4.rows.map fun r => { r with interval := 0 } }
    if df5.cols.contains "uptime" then df5
    else { df5 with cols := df5.cols ++ ["uptime"],
                    rows := df5.rows.map fun r => { r with uptime := 0 } }
  else emptyPTable

/-! ## Fallback line-by-line parser (`parse_mixed_format_line_by_line`)

`pf` models Python `float(...)`, `pi` models `int(...)`; a `none` result is
the `ValueError` that makes the parser skip the row. -/

/-- Parse one comma-split, field-stripped row by its field count.  Returns
`none` for a skipped row (too few fields or failed numeric conversion). -/
def parseLine (pf : String → Option ℚ) (pi : String → Option Int)
    (fields : List String) : Option SensorRecord :=
  if fields.length < 5 then none
  else
    match pf (fields.getD 1 ""), pf (fields.getD 2 ""), pf (fields.getD 3 ""),
        pf (fields.getD 4 "") with
    | some temp, some hum, some pres, some batt =>
      let base : SensorRecord :=
        { timestamp := .raw (fields.getD 0 ""), temperature := temp,
          humidity := hum, pressure := pres, battery := batt,
          power_source := "Unknown", charging := "N", interval := 0,
          uptime := 0, rssi := 0, snr := 0 }
      if fields.length = 8 then
        -- standard layout: power_source, rssi, snr; solar defaults
        match pi (fields.getD 6 ""), pf (fields.getD 7 "") with
        | some rs, some sn =>
          some { base with power_source := fields.getD 5 "", rssi := rs, snr := sn }
        | _, _ => none
      else if fields.length = 9 then
        -- solar-without-uptime layout: charging, interval, rssi, snr
        match (if pyStrip (fields.getD 6 "") = "" then some 0
               else pi (fields.getD 6 "")),
            pi (fields.getD 7 ""), pf (fields.getD 8 "") with
        | some itv, some rs, some sn =>
          some { base with
            charging := if ["1", "Y", "y", "yes", "Yes"].contains
                (pyStrip (fields.getD 5 "")) then "Y" else "N",
            interval := itv, rssi := rs, snr := sn, power_source := "Solar" }
        | _, _, _ => none
      else if 11 ≤ fields.length then
        -- full solar layout; note: charging is stored verbatim here
        match (if fields.getD 6 "" = "" then some 0 else pi (fields.getD 6 "")),
            (if fields.getD 7 "" = "" then some 0 else pi (fields.getD 7 "")),
            pi (fields.getD 9 ""), pf (fields.getD 10 "") with
        | some itv, some upt, some rs, some sn =>
          some { base with charging := fields.getD 5 "", interval := itv,
                           uptime := upt, power_source := fields.getD 8 "",
                           rssi := rs, snr := sn }
        | _, _, _, _ => none
      else
        -- unexpected field count (5, 6, 7 or 10): best-effort defaults
        some { base with
          power_source := if 6 ≤ fields.length then fields.getD 5 ""
                          else "Unknown" }
    | _, _, _, _ => none

/-- `parse_mixed_format_line_by_line` on the raw text lines of the file:
skip the header line and blank lines, split each line on commas and strip
fields, parse row-wise skipping failures; `none` when no row survives. -/
def parseMixedFormatLineByLine (pf : String → Option ℚ)
    (pi : String → Option Int) (lines : List String) : Option PTable :=
  let rows := (lines.drop 1).filterMap fun line =>
    if pyStrip line = "" then none
    else parseLine pf pi (((pyStrip line).splitOn ",").map pyStrip)
  if rows.isEmpty then none
  else some ⟨allColumns, false, rows⟩

/-! ## File reading (`read_mixed_format_csv`) -/

/-- Outcome of the initial `pd.read_csv` attempt: a parsed frame, a
`ParserError` (with the raw lines handed to the fallback parser), or any
other read failure. -/
inductive ReadInput where
  | parsed (df : PTable)
  | parserError (lines : List String)
  | readError
deriving Repr

/-- `read_mixed_format_csv`: extract the file-level date from the file name,
then normalize + reconcile a cleanly parsed frame (any exception inside the
`try`, such as the `KeyError` raised by `combine_date_and_time` on the empty
frame that `normalize_csv_columns` returns for missing required columns, is
caught and becomes `None`); on `ParserError`, run the fallback parser and
reconcile its output directly, with no column normalization. -/
def readMixedFormatCsv (pf : String → Option ℚ) (pi : String → Option Int)
    (csvPath : String) (inp : ReadInput) : Option PTable :=
  let fileDate := extractDateFromFilename csvPath
  match inp with
  | .parsed df =>
    if df.rows.isEmpty then none
    else
      match combineDateAndTime fileDate (normalizeCsvColumns df) with
      | .ok out => some out
      | .error _ => none
  | .parserError lines =>
    match parseMixedFormatLineByLine pf pi lines with
    | none => none
    | some df =>
      match combineDateAndTime fileDate df with
      | .ok out => some out
      | .error _ => none  -- unreachable: the fallback parser always emits a timestamp column
  | .readError => none

/-! ## Time-based chunking (`chunk_csv_data`) -/

/-- The hard-split threshold: `timedelta(hours=1)` in seconds. -/
def gapThreshold : Int := 3600

/-- Convert one row's timestamp cell as `pd.to_datetime(col, errors=coerce)`
does element-wise (`gp` is the generic parser): instants stay, strings parse
or become NaT. -/
def convertCell (gp : String → Option TS) (r : SensorRecord) : SensorRecord :=
  match r.timestamp with
  | .raw s => { r with timestamp := .dt (gp s) }
  | .dt t => { r with timestamp := .dt t }

/-- The loop of `chunk_csv_data` over the sorted rows, carried out record by
record.  `prev` is the record the running `time_diff` is taken against (the
immediately preceding sorted record), `cur` is the open chunk in reverse
order, `dur` the accumulated duration of the open chunk.  A gap strictly
above one hour closes the chunk before the current record (hard split);
otherwise the gap is accumulated and reaching the configured window also
closes the chunk before the current record (soft split). -/
def chunkStep (maxDur : Int) (prev : SensorRecord) (cur : List SensorRecord)
    (dur : Int) : List SensorRecord → List (List SensorRecord)
  | [] => [cur.reverse]
  | r :: rest =>
    let td := key r - key prev
    if gapThreshold < td then
      cur.reverse :: chunkStep maxDur r [r] 0 rest
    else
      let dur2 := dur + td
      if maxDur ≤ dur2 then
        cur.reverse :: chunkStep maxDur r [r] 0 rest
      else
        chunkStep maxDur r (r :: cur) dur2 rest

/-- `chunk_csv_data`.  Returns the caller-visible frame after the call
(the function assigns a converted timestamp column into the caller's frame
when its dtype is not datetime64 — the only in-place write; `dropna`,
`sort_values` and `reset_index` all rebind to fresh frames) together with
the list of chunks. -/
def chunkCsvData (gp : String → Option TS) (hoursPerChunk : Int)
    (df : PTable) : PTable × List (List SensorRecord) :=
  if df.rows.isEmpty then (df, [])
  else
    let dfc := if df.tsIsDatetime then df
               else { df with tsIsDatetime := true,
                              rows := df.rows.map (convertCell gp) }
    let valid := dfc.rows.filter fun r => !isNaTCell r.timestamp
    if valid.isEmpty then (dfc, [])
    else
      let sorted := valid.insertionSort recLE
      match sorted with
      | [] => (dfc, [])  -- unreachable: sorting a nonempty list is nonempty
      | first :: rest =>
        (dfc, (chunkStep (hoursPerChunk * 3600) first [first] 0 rest).filter
          fun c => !c.isEmpty)

/-- The timestamp-valid rows the chunker works on: the rows of the
(possibly dtype-converted) frame surviving `dropna`. -/
def validRows (gp : String → Option TS) (df : PTable) : List SensorRecord :=
  (if df.tsIsDatetime then df.rows else df.rows.map (convertCell gp)).filter
    fun r => !isNaTCell r.timestamp

/-- "No large gap" between two consecutive records: the hard-split relation
the chunker respects inside a chunk. -/
def gapOK (a b : SensorRecord) : Prop := key b - key a ≤ gapThreshold

/-- The chunk list `chunk_csv_data` returns, expressed over the valid rows:
the loop applied to the time-sorted valid rows. -/
def chunkFromValid (m : Int) (valid : List SensorRecord) :
    List (List SensorRecord) :=
  if valid.isEmpty then []
  else
    match valid.insertionSort recLE with
    | [] => []
    | first :: rest => (chunkStep m first [first] 0 rest).filter fun c => !c.isEmpty

/-! ## Solar detection and per-chunk statistics
(`detect_solar_data`, `calculate_statistics`)

`calculate_statistics` builds a Python dict; the dict is modelled as an
association list with exactly the string keys the source uses, so that the
lookups performed downstream (`chunks_to_documents`, `get_data_summary`)
have the source's key-matching semantics. -/

instance : Inhabited SensorRecord :=
  ⟨⟨.dt none, 0, 0, 0, 0, "", "", 0, 0, 0, 0⟩⟩

/-- Value stored in a statistics dict: an int, a float (exact rational), a
timestamp, the square root of a rational (sample standard deviations are
irrational; `sq x` stands for the real number sqrt x, which no claim needs
numerically), or NaN. -/
inductive SVal where
  | i (n : Int)
  | q (x : ℚ)
  | t (ts : TS)
  | sq (x : ℚ)
  | nan
deriving DecidableEq, Repr

/-- A statistics dict. -/
abbrev Stats := List (String × SVal)

/-- pandas column `.max()` on a nonempty column (the `[]` case is never
reached: every chunk is nonempty). -/
def pyMaxI : List Int → Int
  | [] => 0
  | a :: t => t.foldl max a

/-- pandas column `.min()` on a nonempty column. -/
def pyMinI : List Int → Int
  | [] => 0
  | a :: t => t.foldl min a

/-- pandas column `.max()` for float columns. -/
def pyMaxQ : List ℚ → ℚ
  | [] => 0
  | a :: t => t.foldl max a

/-- pandas column `.min()` for float columns. -/
def pyMinQ : List ℚ → ℚ
  | [] => 0
  | a :: t => t.foldl min a

/-- Column mean (`.mean()` / `np.mean`): sum divided by length. -/
def meanQ (l : List ℚ) : ℚ := l.sum / (l.length : ℚ)

/-- Column mean of an integer column (the result is a float). -/
def meanI (l : List Int) : ℚ := ((l.sum : ℚ)) / (l.length : ℚ)

/-- Sample variance (`ddof=1`), defined for length ≥ 2. -/
def sampleVar (l : List ℚ) : ℚ :=
  ((l.map fun x => (x - meanQ l) ^ 2).sum) / ((l.length - 1 : ℕ) : ℚ)

/-- pandas `.std()`: NaN when fewer than two values, else the square root of
the sample variance. -/
def stdSVal (l : List ℚ) : SVal :=
  if l.length ≤ 1 then .nan else .sq (sampleVar l)

/-- `detect_solar_data`: solar is present when any charging flag differs from
the default, or any interval/uptime is positive; the info block reports the
percentage of records whose charging flag is exactly the canonical truthy
value. -/
def detectSolarData (c : List SensorRecord) :
    Bool × Option (ℚ × ℚ × Int × ℚ) :=
  if c.isEmpty then (false, none)
  else if c.any (fun r => r.charging ≠ "N") ∨ c.any (fun r => 0 < r.interval)
      ∨ c.any (fun r => 0 < r.uptime) then
    (true, some
      ((((c.filter fun r => r.charging = "Y").length : ℚ) / (c.length : ℚ)) * 100,
       meanI (c.map fun r => r.interval),
       pyMaxI (c.map fun r => r.uptime),
       meanI (c.map fun r => r.uptime)))
  else (false, none)

/-- The leading entries of the statistics dict: count and the first/last
timestamps of the (time-sorted, nonempty) chunk. -/
def baseStats (c : List SensorRecord) : Stats :=
  [("count", .i (c.length : Int)),
   ("time_start", .t (tsOf (c.headD default))),
   ("time_end", .t (tsOf (c.getLastD default)))]

/-- One iteration of the environmental-parameter loop in
`calculate_statistics`; the four f-string keys of one parameter are passed
expanded. -/
def envStatsFor (kmin kmax kmean kstd : String) (proj : SensorRecord → ℚ)
    (c : List SensorRecord) : Stats :=
  let v := c.map proj
  [(kmin, .q (pyMinQ v)), (kmax, .q (pyMaxQ v)),
   (kmean, .q (meanQ v)), (kstd, stdSVal v)]

/-- Battery entries. -/
def batteryStats (c : List SensorRecord) : Stats :=
  let v := c.map fun r => r.battery
  [("battery_min", .q (pyMinQ v)), ("battery_max", .q (pyMaxQ v)),
   ("battery_mean", .q (meanQ v))]

/-- The rssi entries, present exactly when the column maximum is nonzero. -/
def rssiStatsSeg (c : List SensorRecord) : Stats :=
  let v := c.map fun r => r.rssi
  if pyMaxI v ≠ 0 then
    [("rssi_mean", .q (meanI v)), ("rssi_min", .i (pyMinI v))]
  else []

/-- The snr entries, present exactly when the column maximum is nonzero. -/
def snrStatsSeg (c : List SensorRecord) : Stats :=
  let v := c.map fun r => r.snr
  if pyMaxQ v ≠ 0 then
    [("snr_mean", .q (meanQ v)), ("snr_min", .q (pyMinQ v))]
  else []

/-- The solar entries, present exactly when `detect_solar_data` fires. -/
def solarStatsSeg (c : List SensorRecord) : Stats :=
  match detectSolarData c with
  | (true, some info) =>
    [("solar_charging_pct", .q info.1), ("solar_avg_interval", .q info.2.1),
     ("solar_max_uptime", .i info.2.2.1)]
  | _ => []

/-- `calculate_statistics`: the statistics dict, with its entries in the
order the source inserts them (every chunk has every column, so the
column-presence tests of the source are always true). -/
def calculateStatistics (c : List SensorRecord) : Stats :=
  baseStats c
    ++ envStatsFor "temperature_min" "temperature_max" "temperature_mean"
        "temperature_std" (fun r => r.temperature) c
    ++ envStatsFor "humidity_min" "humidity_max" "humidity_mean"
        "humidity_std" (fun r => r.humidity) c
    ++ envStatsFor "pressure_min" "pressure_max" "pressure_mean"
        "pressure_std" (fun r => r.pressure) c
    ++ batteryStats c
    ++ rssiStatsSeg c
    ++ snrStatsSeg c
    ++ solarStatsSeg c

/-! ## Rendered description: conditional sections
(`generate_chunk_description`)

Only the contractual presence/absence conditions of the signal-quality
section are modelled; the prose itself is presentation. -/

/-- The `=== SIGNAL QUALITY ===` section is rendered iff the chunk's maximum
rssi is nonzero. -/
def descHasSignalSection (c : List SensorRecord) : Bool :=
  pyMaxI (c.map fun r => r.rssi) != 0

/-- The SNR lines are rendered iff the signal section is rendered and the
chunk's maximum snr is nonzero (the snr test is nested inside the rssi
test in the source). -/
def descHasSnrLines (c : List SensorRecord) : Bool :=
  descHasSignalSection c && (pyMaxQ (c.map fun r => r.snr) != 0)

/-! ## Per-file processing (`process_csv_file`) and document conversion
(`chunks_to_documents`) -/

/-- One element of the list `process_csv_file` returns.  The rendered
description string is not modelled (its conditional sections are, above). -/
structure ProcessedChunk where
  chunk_id : Nat
  source_file : String
  statistics : Stats
  raw_data : List SensorRecord
deriving DecidableEq, Repr

/-- `process_csv_file`: read, chunk, and attach statistics, numbering the
chunks from 0. -/
def processCsvFile (pf : String → Option ℚ) (pi : String → Option Int)
    (gp : String → Option TS) (csvPath : String) (inp : ReadInput)
    (hoursPerChunk : Int) : List ProcessedChunk :=
  match readMixedFormatCsv pf pi csvPath inp with
  | none => []
  | some df =>
    if df.rows.isEmpty then []
    else
      let chunks := (chunkCsvData gp hoursPerChunk df).2
      if chunks.isEmpty then []
      else chunks.enum.map fun ic =>
        ⟨ic.1, csvPath, calculateStatistics ic.2, ic.2⟩

/-- Zero-padded two-digit rendering. -/
def pad2 (n : Nat) : String :=
  if n < 10 then "0" ++ toString n else toString n

/-- Zero-padded four-digit rendering. -/
def pad4 (n : Nat) : String :=
  if n < 10 then "000" ++ toString n
  else if n < 100 then "00" ++ toString n
  else if n < 1000 then "0" ++ toString n
  else toString n

/-- `strftime` with format `%Y-%m-%d %H:%M:%S`. -/
def formatTS (t : TS) : String :=
  pad4 t.y ++ "-" ++ pad2 t.mo ++ "-" ++ pad2 t.d ++ " " ++ pad2 t.h ++ ":"
    ++ pad2 t.mi ++ ":" ++ pad2 t.s

/-- `strftime` with format `%Y-%m-%d`. -/
def formatDateOnly (t : TS) : String :=
  pad4 t.y ++ "-" ++ pad2 t.mo ++ "-" ++ pad2 t.d

/-- Numeric value of a dict entry under Python `float(...)`; non-numeric
values never reach this conversion in the modelled pipeline. -/
def qOfSVal : SVal → ℚ
  | .q x => x
  | .i n => (n : ℚ)
  | _ => 0

/-- Numeric value of a dict entry under Python `int(...)` (truncation toward
zero); non-numeric values never reach this conversion. -/
def intOfSVal : SVal → Int
  | .i n => n
  | .q x => if 0 ≤ x then ⌊x⌋ else -⌊-x⌋
  | _ => 0

/-- The flattened metadata record of one Document produced by
`chunks_to_documents`.  Keys added only when the statistics dict is
nonempty are `Option`-valued (`none` models an absent key). -/
structure DocMeta where
  chunk_id : Int
  source_file : String
  time_start : Option String
  time_end : Option String
  start_time : Option String
  end_time : Option String
  date : Option String
  reading_count : Option Int
  temperature_mean : Option ℚ
  humidity_mean : Option ℚ
  pressure_mean : Option ℚ
  battery_mean : Option ℚ
deriving DecidableEq, Repr

/-- `chunks_to_documents`, restricted to its metadata output (the
`page_content` is the unmodelled description text).  Every chunk produced by
this pipeline is a dict, so the non-dict skip never fires. -/
def chunksToDocuments (cs : List ProcessedChunk) : List DocMeta :=
  cs.map fun c =>
    let stats := c.statistics
    let basic : DocMeta :=
      ⟨(c.chunk_id : Int), c.source_file, none, none, none, none, none, none,
       none, none, none, none⟩
    if stats.isEmpty then basic
    else
      -- stats.get('time_start', ''): a Timestamp formats, anything else
      -- stringifies with date 'Unknown'
      let startPair : String × String :=
        match stats.lookup "time_start" with
        | some (.t t) => (formatTS t, formatDateOnly t)
        | _ => ("", "Unknown")
      let endStr : String :=
        match stats.lookup "time_end" with
        | some (.t t) => formatTS t
        | _ => ""
      { basic with
        time_start := some startPair.1, time_end := some endStr,
        start_time := some startPair.1, end_time := some endStr,
        date := some startPair.2,
        reading_count := some (intOfSVal ((stats.lookup "reading_count").getD (.i 0))),
        temperature_mean := some (qOfSVal ((stats.lookup "temperature_mean").getD (.q 0))),
        humidity_mean := some (qOfSVal ((stats.lookup "humidity_mean").getD (.q 0))),
        pressure_mean := some (qOfSVal ((stats.lookup "pressure_mean").getD (.q 0))),
        battery_mean := some (qOfSVal ((stats.lookup "battery_mean").getD (.q 0))) }

/-! ## Dataset-level summary (`get_data_summary`) -/

/-- The numeric block of the summary: min/max/mean for the four chunk-mean
series. -/
structure OverallStats where
  tMin : ℚ
  tMax : ℚ
  tMean : ℚ
  hMin : ℚ
  hMax : ℚ
  hMean : ℚ
  pMin : ℚ
  pMax : ℚ
  pMean : ℚ
  bMin : ℚ
  bMax : ℚ
  bMean : ℚ
deriving DecidableEq, Repr

/-- What `get_data_summary` reports: the no-data message, or the total chunk
count together with the overall-statistics block when one is rendered. -/
inductive SummaryOut where
  | noData
  | summary (totalChunks : Nat) (overall : Option OverallStats)
deriving DecidableEq, Repr

/-- Python `min(...)` on a list: raises on empty input. -/
def pyMinQE : List ℚ → Except Unit ℚ
  | [] => .error ()
  | a :: t => .ok (t.foldl min a)

/-- Python `max(...)` on a list: raises on empty input. -/
def pyMaxQE : List ℚ → Except Unit ℚ
  | [] => .error ()
  | a :: t => .ok (t.foldl max a)

/-- `get_data_summary` on raw chunk dictionaries (the Document branch reads
the same four means back out of the metadata).  Chunk means are collected,
zero values are removed as failed extractions, and the overall block is
rendered only when the temperature list survives; `min`/`max` on one of the
other lists raise if that list is emptied, which the `Except` layer
records.  The time-range lines are presentation only and not modelled. -/
def getDataSummary (cs : List ProcessedChunk) : Except Unit SummaryOut :=
  if cs.isEmpty then .ok .noData
  else
    let contrib := cs.filterMap fun c =>
      if c.statistics.isEmpty then none
      else some
        (qOfSVal ((c.statistics.lookup "temperature_mean").getD (.q 0)),
         qOfSVal ((c.statistics.lookup "humidity_mean").getD (.q 0)),
         qOfSVal ((c.statistics.lookup "pressure_mean").getD (.q 0)),
         qOfSVal ((c.statistics.lookup "battery_mean").getD (.q 0)))
    let tF := (contrib.map fun x => x.1).filter fun x => decide (x ≠ 0)
    let hF := (contrib.map fun x => x.2.1).filter fun x => decide (x ≠ 0)
    let pF := (contrib.map fun x => x.2.2.1).filter fun x => decide (x ≠ 0)
    let bF := (contrib.map fun x => x.2.2.2).filter fun x => decide (x ≠ 0)
    if tF.isEmpty then .ok (.summary cs.length none)
    else do
      let tMin ← pyMinQE tF
      let tMax ← pyMaxQE tF
      let hMin ← pyMinQE hF
      let hMax ← pyMaxQE hF
      let pMin ← pyMinQE pF
      let pMax ← pyMaxQE pF
      let bMin ← pyMinQE bF
      let bMax ← pyMaxQE bF
      return .summary cs.length (some
        ⟨tMin, tMax, meanQ tF, hMin, hMax, meanQ hF, pMin, pMax, meanQ pF,
         bMin, bMax, meanQ bF⟩)

/-! ## Statement-side definitions and concrete inputs -/

/-- The per-metric filtered chunk-mean series `get_data_summary` aggregates:
one mean per chunk with a nonempty statistics dict, with zero values removed
as failed extractions. -/
def chunkMeansOf (cs : List ProcessedChunk) (k : String) : List ℚ :=
  (cs.filterMap fun c =>
    if c.statistics.isEmpty then none
    else some (qOfSVal ((c.statistics.lookup k).getD (.q 0)))).filter
      fun x => decide (x ≠ 0)

/-- `mn`/`mx`/`av` are the minimum, maximum and mean of the series `l`. -/
def ReportsAgg (l : List ℚ) (mn mx av : ℚ) : Prop :=
  mn ∈ l ∧ (∀ x ∈ l, mn ≤ x) ∧ mx ∈ l ∧ (∀ x ∈ l, x ≤ mx)
    ∧ av * (l.length : ℚ) = l.sum

/-- Modelled from the spec: claim C6's last-resort clause — with no
caller-supplied date (the reader has no such parameter) and no date in the
file name, reconciliation is claimed to stamp the current system date (the
`sysY`/`sysMo`/`sysD` parameters) onto the reconciled timestamps. -/
def specC6Fallback (sysY sysMo sysD : Nat) : Prop :=
  ∀ (pf : String → Option ℚ) (pi : String → Option Int) (path : String)
    (df0 df : PTable),
    extractDateFromFilename path = none →
    readMixedFormatCsv pf pi path (.parsed df0) = some df →
    ∀ r ∈ df.rows, ∀ t : TS, r.timestamp = .dt (some t) →
      t.y = sysY ∧ t.mo = sysMo ∧ t.d = sysD

/-- A 13-record single-day series, one record per hour (hours 0-12) of
2025-12-02, already reconciled to datetime form. -/
def demoRec13 (h : Nat) : SensorRecord :=
  { timestamp := .dt (some ⟨2025, 12, 2, h, 0, 0⟩), temperature := 18,
    humidity := 60, pressure := 1013, battery := 4, power_source := "Solar",
    charging := "N", interval := 0, uptime := 0, rssi := -80, snr := 5 }

/-- The 13-hour demo frame. -/
def demo13 : PTable := ⟨allColumns, true, (List.range 13).map demoRec13⟩

/-- Two reconciled records two hours apart (10:00 and 12:00). -/
def gapRecA : SensorRecord := demoRec13 10

/-- The later of the two gap records. -/
def gapRecB : SensorRecord := demoRec13 12

/-- A two-record frame whose records are more than one hour apart. -/
def demoGap : PTable := ⟨allColumns, true, [gapRecA, gapRecB]⟩

/-- A row whose timestamp is still an unparsed string. -/
def demoRawRow : SensorRecord := { (default : SensorRecord) with timestamp := .raw "10:00:00" }

/-- A frame whose timestamp column is object dtype (raw strings), as a
caller passing an unprocessed DataFrame would supply. -/
def demoRawTable : PTable := ⟨allColumns, false, [demoRawRow]⟩

/-- The reconciled form of `demoRawRow` under a file name with no date:
charging canonicalized, timestamp parsed time-only onto 1900-01-01. -/
def demoC6row : SensorRecord :=
  { demoRawRow with
    charging := "N",
    timestamp := .dt (some ⟨1900, 1, 1, 10, 0, 0⟩) }

/-- The reader's output for `demoRawTable` under a file name with no date. -/
def demoC6out : PTable := ⟨allColumns, true, [demoC6row]⟩

/-- The record the fallback parser produces from `demoFields11` when every
numeric conversion returns 0. -/
def demoC10rec : SensorRecord :=
  ⟨.raw "10:00:00", 0, 0, 0, 0, "Solar", "1", 0, 0, 0, 0⟩

/-- A frame missing the required `humidity` column. -/
def demoMissingCol : PTable :=
  ⟨["timestamp", "temperature", "pressure", "battery"], false, [demoRawRow]⟩

/-- A chunk mixing a genuinely negative rssi/snr reading with an all-zero
(default) reading, so the column maxima are 0 although nonzero values
exist. -/
def demoC5 : List SensorRecord :=
  [{ demoRec13 10 with rssi := -80, snr := -5 },
   { demoRec13 11 with rssi := 0, snr := 0 }]

/-- A two-record reconciled chunk. -/
def demoC2 : List SensorRecord := [demoRec13 10, demoRec13 11]

/-- The processed form of `demoC2`, as `process_csv_file` builds it. -/
def demoC2chunk : ProcessedChunk :=
  ⟨0, "lora_data_2025-12-02.csv", calculateStatistics demoC2, demoC2⟩

/-- A one-record chunk whose temperature mean is 0. -/
def demoC8rec0 : SensorRecord := { demoRec13 10 with temperature := 0, humidity := 50, pressure := 1000 }

/-- A one-record chunk whose temperature mean is 5. -/
def demoC8rec1 : SensorRecord := { demoRec13 11 with temperature := 5, humidity := 50, pressure := 1000 }

/-- The statistics dict of the one-record chunk `[demoC8rec0]`, with each
aggregate written out in evaluated form (a single reading is its own min,
max and mean; its sample standard deviation is NaN). -/
def demoC8stats0 : Stats :=
  [("count", .i 1), ("time_start", .t ⟨2025, 12, 2, 10, 0, 0⟩),
   ("time_end", .t ⟨2025, 12, 2, 10, 0, 0⟩),
   ("temperature_min", .q 0), ("temperature_max", .q 0),
   ("temperature_mean", .q 0), ("temperature_std", .nan),
   ("humidity_min", .q 50), ("humidity_max", .q 50),
   ("humidity_mean", .q 50), ("humidity_std", .nan),
   ("pressure_min", .q 1000), ("pressure_max", .q 1000),
   ("pressure_mean", .q 1000), ("pressure_std", .nan),
   ("battery_min", .q 4), ("battery_max", .q 4), ("battery_mean", .q 4),
   ("rssi_mean", .q (-80)), ("rssi_min", .i (-80)),
   ("snr_mean", .q 5), ("snr_min", .q 5)]

/-- The statistics dict of the one-record chunk `[demoC8rec1]`. -/
def demoC8stats1 : Stats :=
  [("count", .i 1), ("time_start", .t ⟨2025, 12, 2, 11, 0, 0⟩),
   ("time_end", .t ⟨2025, 12, 2, 11, 0, 0⟩),
   ("temperature_min", .q 5), ("temperature_max", .q 5),
   ("temperature_mean", .q 5), ("temperature_std", .nan),
   ("humidity_min", .q 50), ("humidity_max", .q 50),
   ("humidity_mean", .q 50), ("humidity_std", .nan),
   ("pressure_min", .q 1000), ("pressure_max", .q 1000),
   ("pressure_mean", .q 1000), ("pressure_std", .nan),
   ("battery_min", .q 4), ("battery_max", .q 4), ("battery_mean", .q 4),
   ("rssi_mean", .q (-80)), ("rssi_min", .i (-80)),
   ("snr_mean", .q 5), ("snr_min", .q 5)]

/-- Two processed chunks whose chunk-level temperature means are 0 and 5. -/
def demoC8 : List ProcessedChunk :=
  [⟨0, "f.csv", demoC8stats0, [demoC8rec0]⟩,
   ⟨1, "f.csv", demoC8stats1, [demoC8rec1]⟩]

/-- A full-solar (11-field) raw CSV row whose charging field is the raw
truthy encoding "1". -/
def demoFields11 : List String :=
  ["10:00:00", "18.5", "60", "1013", "4.1", "1", "", "", "Solar", "-80", "5.5"]

/-! ## Chunker lemmas -/

/-- The chunks emitted by the loop concatenate to the open chunk followed by
the unprocessed rows. -/
theorem chunkStep_join (m : Int) (rest : List SensorRecord) :
    ∀ prev cur dur, (chunkStep m prev cur dur rest).flatten = cur.reverse ++ rest := by
  induction rest with
  | nil => intro prev cur dur; simp [chunkStep]
  | cons r rest ih =>
    intro prev cur dur
    simp only [chunkStep]
    split
    · simp [ih]
    · split
      · simp [ih]
      · simp [ih]

/-- Every chunk the loop emits is nonempty, as long as the open chunk is. -/
theorem chunkStep_ne_nil (m : Int) (rest : List SensorRecord) :
    ∀ prev cur dur, cur ≠ [] →
      ∀ c ∈ chunkStep m prev cur dur rest, c ≠ [] := by
  induction rest with
  | nil =>
    intro prev cur dur h c hc
    simp only [chunkStep, List.mem_singleton] at hc
    subst hc
    simpa using h
  | cons r rest ih =>
    intro prev cur dur h c hc
    simp only [chunkStep] at hc
    split at hc
    · rcases List.mem_cons.mp hc with rfl | hmem
      · simpa using h
      · exact ih r [r] 0 (by simp) c hmem
    · split at hc
      · rcases List.mem_cons.mp hc with rfl | hmem
        · simpa using h
        · exact ih r [r] 0 (by simp) c hmem
      · exact ih r (r :: cur) _ (by simp) c hc

/-- Every chunk the loop emits is time-sorted, given that the open chunk
followed by the remaining rows is sorted. -/
theorem chunkStep_chain_le (m : Int) (rest : List SensorRecord) :
    ∀ prev cur dur, List.Chain' recLE (cur.reverse ++ rest) →
      ∀ c ∈ chunkStep m prev cur dur rest, List.Chain' recLE c := by
  induction rest with
  | nil =>
    intro prev cur dur hch c hc
    simp only [chunkStep, List.mem_singleton] at hc
    subst hc
    simpa using hch
  | cons r rest ih =>
    intro prev cur dur hch c hc
    obtain ⟨h₁, h₂, -⟩ := List.chain'_append.mp hch
    simp only [chunkStep] at hc
    split at hc
    · rcases List.mem_cons.mp hc with rfl | hmem
      · exact h₁
      · exact ih r [r] 0 (by simpa using h₂) c hmem
    · split at hc
      · rcases List.mem_cons.mp hc with rfl | hmem
        · exact h₁
        · exact ih r [r] 0 (by simpa using h₂) c hmem
      · refine ih r (r :: cur) _ ?_ c hc
        simpa [List.append_assoc] using hch

/-- Inside every chunk the loop emits, consecutive records are at most the
hard-split threshold apart: a record only joins the open chunk when its gap
to the previous record is within the threshold. -/
theorem chunkStep_chain_gap (m : Int) (rest : List SensorRecord) :
    ∀ prev cur dur, cur.head? = some prev → List.Chain' gapOK cur.reverse →
      ∀ c ∈ chunkStep m prev cur dur rest, List.Chain' gapOK c := by
  induction rest with
  | nil =>
    intro prev cur dur _ hch c hc
    simp only [chunkStep, List.mem_singleton] at hc
    subst hc
    exact hch
  | cons r rest ih =>
    intro prev cur dur hhd hch c hc
    simp only [chunkStep] at hc
    split at hc
    · rcases List.mem_cons.mp hc with rfl | hmem
      · exact hch
      · exact ih r [r] 0 rfl (by simp) c hmem
    · rename_i hgap
      split at hc
      · rcases List.mem_cons.mp hc with rfl | hmem
        · exact hch
        · exact ih r [r] 0 rfl (by simp) c hmem
      · refine ih r (r :: cur) _ rfl ?_ c hc
        rw [List.reverse_cons]
        refine List.chain'_append.mpr ⟨hch, List.chain'_singleton r, ?_⟩
        intro x hx y hy
        rw [List.getLast?_reverse, hhd, Option.mem_some_iff] at hx
        simp only [List.head?_cons, Option.mem_some_iff] at hy
        subst hx; subst hy
        unfold gapOK
        omega

/-- If lists that are each `Chain' P` concatenate to a list with adjacent
elements `a, b` violating `P`, then some nonempty proper prefix of the lists
concatenates to exactly the part ending at `a`: the boundary falls
immediately after `a`. -/
theorem flatten_boundary {α : Type _} {P : α → α → Prop} :
    ∀ (cs : List (List α)) (l₁ l₂ : List α) (a b : α),
      (∀ c ∈ cs, List.Chain' P c) →
      cs.flatten = l₁ ++ a :: b :: l₂ → ¬ P a b →
      ∃ n, 0 < n ∧ n < cs.length ∧ (cs.take n).flatten = l₁ ++ [a] := by
  intro cs
  induction cs with
  | nil =>
    intro l₁ l₂ a b _ hj _
    exact absurd hj.symm (by simp)
  | cons c cs ih =>
    intro l₁ l₂ a b hch hj hnP
    rw [List.flatten_cons] at hj
    rcases List.append_eq_append_iff.mp hj with ⟨e, he₁, he₂⟩ | ⟨e, he₁, he₂⟩
    · obtain ⟨n, hn0, hnlt, htake⟩ :=
        ih e l₂ a b (fun d hd => hch d (List.mem_cons_of_mem c hd)) he₂ hnP
      refine ⟨n + 1, by omega, by simpa using Nat.succ_lt_succ hnlt, ?_⟩
      rw [List.take_succ_cons, List.flatten_cons, htake, he₁, List.append_assoc]
    · rcases e with - | ⟨a₀, e⟩
      · simp only [List.nil_append] at he₂
        obtain ⟨n, hn0, hnlt, htake⟩ :=
          ih [] l₂ a b (fun d hd => hch d (List.mem_cons_of_mem c hd))
            he₂.symm hnP
        refine ⟨n + 1, by omega, by simpa using Nat.succ_lt_succ hnlt, ?_⟩
        rw [List.take_succ_cons, List.flatten_cons, htake]
        simp [he₁]
      · rcases e with - | ⟨b₀, e⟩
        · simp only [List.cons_append, List.nil_append, List.cons.injEq] at he₂
          obtain ⟨rfl, hb⟩ := he₂
          have hcs : cs ≠ [] := by
            rintro rfl
            simp at hb
          refine ⟨1, one_pos, ?_, ?_⟩
          · have := List.length_pos.mpr hcs
            simp only [List.length_cons]
            omega
          · simp [he₁]
        · simp only [List.cons_append, List.cons.injEq] at he₂
          obtain ⟨rfl, rfl, -⟩ := he₂
          have hchc := hch c (List.mem_cons_self c cs)
          rw [he₁] at hchc
          exact absurd (List.chain'_append_cons_cons.mp hchc).2.1 hnP

/-- Bridge: the second component of `chunkCsvData` is `chunkFromValid` of the
valid rows. -/
theorem chunkCsvData_snd (gp : String → Option TS) (hours : Int) (df : PTable) :
    (chunkCsvData gp hours df).2 =
      chunkFromValid (hours * 3600) (validRows gp df) := by
  by_cases hrows : df.rows.isEmpty
  · rw [List.isEmpty_iff] at hrows
    have h0 : validRows gp df = [] := by
      unfold validRows
      cases hdt : df.tsIsDatetime <;> simp [hrows]
    simp [chunkCsvData, chunkFromValid, hrows, h0]
  · have hvr : (if df.tsIsDatetime then df
        else { df with tsIsDatetime := true,
                       rows := df.rows.map (convertCell gp) }).rows.filter
          (fun r => !isNaTCell r.timestamp) = validRows gp df := by
      unfold validRows
      cases hdt : df.tsIsDatetime <;> simp
    simp only [chunkCsvData, hrows, Bool.false_eq_true, if_false, hvr,
      chunkFromValid]
    split
    · rfl
    · cases List.insertionSort recLE (validRows gp df) <;> rfl

/-- On a nonempty valid-row list, the chunks concatenate to the time-sorted
valid rows. -/
theorem chunkFromValid_flatten (m : Int) (valid : List SensorRecord)
    (hne : valid ≠ []) :
    (chunkFromValid m valid).flatten = valid.insertionSort recLE := by
  unfold chunkFromValid
  rw [if_neg (by simpa [List.isEmpty_iff] using hne)]
  cases h : valid.insertionSort recLE with
  | nil =>
    have hlen := congrArg List.length h
    rw [List.length_insertionSort] at hlen
    exact absurd (List.length_eq_zero.mp hlen) hne
  | cons first rest =>
    have hfil : (chunkStep m first [first] 0 rest).filter (fun c => !c.isEmpty)
        = chunkStep m first [first] 0 rest := by
      refine List.filter_eq_self.mpr fun c hc => ?_
      have hcne := chunkStep_ne_nil m rest first [first] 0 (by simp) c hc
      simp [List.isEmpty_iff, hcne]
    show ((chunkStep m first [first] 0 rest).filter fun c =>
      !c.isEmpty).flatten = first :: rest
    rw [hfil, chunkStep_join]
    simp

/-- Every chunk is nonempty, time-sorted, and free of intra-chunk gaps above
the hard-split threshold. -/
theorem chunkFromValid_mem (m : Int) (valid : List SensorRecord) :
    ∀ c ∈ chunkFromValid m valid,
      c ≠ [] ∧ List.Chain' recLE c ∧ List.Chain' gapOK c := by
  intro c hc
  unfold chunkFromValid at hc
  by_cases he : valid.isEmpty
  · simp [he] at hc
  · rw [if_neg he] at hc
    cases h : valid.insertionSort recLE with
    | nil => rw [h] at hc; simp at hc
    | cons first rest =>
      rw [h] at hc
      have hc' := List.mem_of_mem_filter hc
      have hsorted : List.Chain' recLE (valid.insertionSort recLE) :=
        List.chain'_iff_pairwise.mpr (List.sorted_insertionSort recLE valid)
      rw [h] at hsorted
      refine ⟨chunkStep_ne_nil m rest first [first] 0 (by simp) c hc', ?_, ?_⟩
      · exact chunkStep_chain_le m rest first [first] 0 (by simpa using hsorted)
          c hc'
      · exact chunkStep_chain_gap m rest first [first] 0 rfl (by simp) c hc'

/-! ## Fold min/max lemmas (pandas `.max()`/`.min()`, Python `max`/`min`) -/

/-- `foldl max` yields a member that bounds every element from above. -/
theorem foldl_max_spec {α : Type _} [LinearOrder α] (a : α) (t : List α) :
    t.foldl max a ∈ a :: t ∧ ∀ x ∈ a :: t, x ≤ t.foldl max a := by
  induction t generalizing a with
  | nil => simp
  | cons b t ih =>
    obtain ⟨hmem, hle⟩ := ih (max a b)
    have hstep : List.foldl max a (b :: t) = List.foldl max (max a b) t := rfl
    constructor
    · rw [hstep]
      rcases List.mem_cons.mp hmem with hh | ht
      · rcases max_choice a b with h1 | h1 <;> rw [hh, h1] <;> simp
      · simp [ht]
    · intro x hx
      rw [hstep]
      rcases List.mem_cons.mp hx with hxa | hx2
      · rw [hxa]
        exact le_trans (le_max_left a b) (hle _ (List.mem_cons_self _ _))
      · rcases List.mem_cons.mp hx2 with hxb | hx3
        · rw [hxb]
          exact le_trans (le_max_right a b) (hle _ (List.mem_cons_self _ _))
        · exact hle x (List.mem_cons_of_mem _ hx3)

/-- `foldl min` yields a member that bounds every element from below. -/
theorem foldl_min_spec {α : Type _} [LinearOrder α] (a : α) (t : List α) :
    t.foldl min a ∈ a :: t ∧ ∀ x ∈ a :: t, t.foldl min a ≤ x := by
  induction t generalizing a with
  | nil => simp
  | cons b t ih =>
    obtain ⟨hmem, hle⟩ := ih (min a b)
    have hstep : List.foldl min a (b :: t) = List.foldl min (min a b) t := rfl
    constructor
    · rw [hstep]
      rcases List.mem_cons.mp hmem with hh | ht
      · rcases min_choice a b with h1 | h1 <;> rw [hh, h1] <;> simp
      · simp [ht]
    · intro x hx
      rw [hstep]
      rcases List.mem_cons.mp hx with hxa | hx2
      · rw [hxa]
        exact le_trans (hle _ (List.mem_cons_self _ _)) (min_le_left a b)
      · rcases List.mem_cons.mp hx2 with hxb | hx3
        · rw [hxb]
          exact le_trans (hle _ (List.mem_cons_self _ _)) (min_le_right a b)
        · exact hle x (List.mem_cons_of_mem _ hx3)

/-- The fold maximum differs from a reference point `z` exactly when some
element lies strictly above `z` or every element lies strictly below it. -/
theorem foldl_max_ne_iff {α : Type _} [LinearOrder α] (z a : α) (t : List α) :
    t.foldl max a ≠ z ↔ (∃ x ∈ a :: t, z < x) ∨ ∀ x ∈ a :: t, x < z := by
  obtain ⟨hmem, hub⟩ := foldl_max_spec a t
  constructor
  · intro hne
    rcases lt_or_gt_of_ne hne with hlt | hgt
    · exact Or.inr fun x hx => lt_of_le_of_lt (hub x hx) hlt
    · exact Or.inl ⟨_, hmem, hgt⟩
  · rintro (⟨x, hx, hzx⟩ | hall)
    · exact ne_of_gt (lt_of_lt_of_le hzx (hub x hx))
    · exact ne_of_lt (hall _ hmem)

/-- Lookup distributes over append. -/
theorem lookup_append {β : Type _} (k : String) (l₁ l₂ : List (String × β)) :
    (l₁ ++ l₂).lookup k = (l₁.lookup k).or (l₂.lookup k) := by
  induction l₁ with
  | nil => simp [List.lookup]
  | cons p l ih =>
    obtain ⟨k1, v1⟩ := p
    simp only [List.cons_append, List.lookup]
    split <;> simp [ih]

/-- The chunk maximum of an integer column is nonzero exactly when some
record is strictly positive there or every record is strictly negative. -/
theorem pyMaxI_ne_zero_iff (f : SensorRecord → Int) (c : List SensorRecord)
    (hne : c ≠ []) :
    pyMaxI (c.map f) ≠ 0 ↔ (∃ r ∈ c, 0 < f r) ∨ ∀ r ∈ c, f r < 0 := by
  cases c with
  | nil => exact absurd rfl hne
  | cons r c =>
    show (c.map f).foldl max (f r) ≠ 0 ↔ _
    rw [foldl_max_ne_iff]
    rw [show f r :: c.map f = (r :: c).map f from rfl]
    constructor
    · rintro (⟨x, hx, h0⟩ | hall)
      · obtain ⟨y, hy, rfl⟩ := List.mem_map.mp hx
        exact Or.inl ⟨y, hy, h0⟩
      · exact Or.inr fun y hy => hall (f y) (List.mem_map_of_mem f hy)
    · rintro (⟨y, hy, h0⟩ | hall)
      · exact Or.inl ⟨f y, List.mem_map_of_mem f hy, h0⟩
      · refine Or.inr fun x hx => ?_
        obtain ⟨y, hy, rfl⟩ := List.mem_map.mp hx
        exact hall y hy

/-- The chunk maximum of a float column is nonzero exactly when some record
is strictly positive there or every record is strictly negative. -/
theorem pyMaxQ_ne_zero_iff (f : SensorRecord → ℚ) (c : List SensorRecord)
    (hne : c ≠ []) :
    pyMaxQ (c.map f) ≠ 0 ↔ (∃ r ∈ c, 0 < f r) ∨ ∀ r ∈ c, f r < 0 := by
  cases c with
  | nil => exact absurd rfl hne
  | cons r c =>
    show (c.map f).foldl max (f r) ≠ 0 ↔ _
    rw [foldl_max_ne_iff]
    rw [show f r :: c.map f = (r :: c).map f from rfl]
    constructor
    · rintro (⟨x, hx, h0⟩ | hall)
      · obtain ⟨y, hy, rfl⟩ := List.mem_map.mp hx
        exact Or.inl ⟨y, hy, h0⟩
      · exact Or.inr fun y hy => hall (f y) (List.mem_map_of_mem f hy)
    · rintro (⟨y, hy, h0⟩ | hall)
      · exact Or.inl ⟨f y, List.mem_map_of_mem f hy, h0⟩
      · refine Or.inr fun x hx => ?_
        obtain ⟨y, hy, rfl⟩ := List.mem_map.mp hx
        exact hall y hy

/-- The statistics dict holds an `rssi_mean` entry exactly when the rssi
column maximum is nonzero. -/
theorem calcStats_lookup_rssi_mean (c : List SensorRecord) :
    (calculateStatistics c).lookup "rssi_mean" =
      if pyMaxI (c.map fun r => r.rssi) ≠ 0
      then some (.q (meanI (c.map fun r => r.rssi))) else none := by
  have hsnr : (snrStatsSeg c).lookup "rssi_mean" = none := by
    by_cases h : pyMaxQ (c.map fun r => r.snr) = 0 <;>
      simp [snrStatsSeg, h, List.lookup]
  have hsolar : (solarStatsSeg c).lookup "rssi_mean" = none := by
    unfold solarStatsSeg
    split <;> simp [List.lookup]
  unfold calculateStatistics
  simp only [lookup_append]
  rw [hsnr, hsolar]
  rw [show (baseStats c).lookup "rssi_mean" = none from rfl]
  rw [show (envStatsFor "temperature_min" "temperature_max" "temperature_mean"
    "temperature_std" (fun r => r.temperature) c).lookup "rssi_mean" = none from rfl]
  rw [show (envStatsFor "humidity_min" "humidity_max" "humidity_mean"
    "humidity_std" (fun r => r.humidity) c).lookup "rssi_mean" = none from rfl]
  rw [show (envStatsFor "pressure_min" "pressure_max" "pressure_mean"
    "pressure_std" (fun r => r.pressure) c).lookup "rssi_mean" = none from rfl]
  rw [show (batteryStats c).lookup "rssi_mean" = none from rfl]
  by_cases h : pyMaxI (c.map fun r => r.rssi) = 0 <;>
    simp [rssiStatsSeg, h, List.lookup]

/-- The statistics dict holds an `snr_mean` entry exactly when the snr
column maximum is nonzero. -/
theorem calcStats_lookup_snr_mean (c : List SensorRecord) :
    (calculateStatistics c).lookup "snr_mean" =
      if pyMaxQ (c.map fun r => r.snr) ≠ 0
      then some (.q (meanQ (c.map fun r => r.snr))) else none := by
  have hrssi : (rssiStatsSeg c).lookup "snr_mean" = none := by
    by_cases h : pyMaxI (c.map fun r => r.rssi) = 0 <;>
      simp [rssiStatsSeg, h, List.lookup]
  have hsolar : (solarStatsSeg c).lookup "snr_mean" = none := by
    unfold solarStatsSeg
    split <;> simp [List.lookup]
  unfold calculateStatistics
  simp only [lookup_append]
  rw [hrssi, hsolar]
  rw [show (baseStats c).lookup "snr_mean" = none from rfl]
  rw [show (envStatsFor "temperature_min" "temperature_max" "temperature_mean"
    "temperature_std" (fun r => r.temperature) c).lookup "snr_mean" = none from rfl]
  rw [show (envStatsFor "humidity_min" "humidity_max" "humidity_mean"
    "humidity_std" (fun r => r.humidity) c).lookup "snr_mean" = none from rfl]
  rw [show (envStatsFor "pressure_min" "pressure_max" "pressure_mean"
    "pressure_std" (fun r => r.pressure) c).lookup "snr_mean" = none from rfl]
  rw [show (batteryStats c).lookup "snr_mean" = none from rfl]
  by_cases h : pyMaxQ (c.map fun r => r.snr) = 0 <;>
    simp [snrStatsSeg, h, List.lookup]

/-! ## Claim theorems -/

/-- Claim C1: for every input whose timestamp-valid records are non-empty,
the chunker's output chunks, concatenated in order, are exactly the input's
valid records sorted ascending by timestamp (a permutation of the valid
records, concatenating to a time-sorted list — no duplication, no omission);
every emitted chunk is non-empty and its records are sorted ascending by
timestamp. -/
theorem chunks_partition_sorted_valid_rows (gp : String → Option TS)
    (hours : Int) (df : PTable) (hne : validRows gp df ≠ []) :
    ((chunkCsvData gp hours df).2).flatten.Perm (validRows gp df)
    ∧ List.Sorted recLE ((chunkCsvData gp hours df).2).flatten
    ∧ ∀ c ∈ (chunkCsvData gp hours df).2, c ≠ [] ∧ List.Sorted recLE c := by
  rw [chunkCsvData_snd]
  have hj := chunkFromValid_flatten (hours * 3600) (validRows gp df) hne
  refine ⟨?_, ?_, ?_⟩
  · rw [hj]
    exact List.perm_insertionSort recLE (validRows gp df)
  · rw [hj]
    exact List.sorted_insertionSort recLE (validRows gp df)
  · intro c hc
    obtain ⟨h1, h2, -⟩ := chunkFromValid_mem _ _ c hc
    exact ⟨h1, List.chain'_iff_pairwise.mp h2⟩

/-- Witness for C1 at a concrete 13-record input. -/
theorem chunks_partition_sorted_valid_rows_witness :
    validRows (fun _ => none) demo13 ≠ []
    ∧ (((chunkCsvData (fun _ => none) 24 demo13).2).flatten.Perm
          (validRows (fun _ => none) demo13)
        ∧ List.Sorted recLE
            ((chunkCsvData (fun _ => none) 24 demo13).2).flatten
        ∧ ∀ c ∈ (chunkCsvData (fun _ => none) 24 demo13).2,
            c ≠ [] ∧ List.Sorted recLE c) :=
  ⟨by decide, chunks_partition_sorted_valid_rows (fun _ => none) 24 demo13
    (by decide)⟩

/-- Claim C3: a single-day series of 13 records spaced exactly one hour
apart (hours 0 through 12 of 2025-12-02) chunked with a 4-hour window yields
exactly 4 chunks holding hours 0-3, 4-7, 8-11 and 12 — sizes 4, 4, 4, 1. -/
theorem thirteen_hourly_records_four_chunks :
    ((chunkCsvData (fun _ => none) 4 demo13).2).map
        (fun c => c.map fun r => (tsOf r).h) =
      [[0, 1, 2, 3], [4, 5, 6, 7], [8, 9, 10, 11], [12]] := by decide

/-- Claim C4: any two consecutive records of the sorted valid rows that are
more than one hour apart land in different chunks, with the chunk boundary
immediately after the earlier record: some nonempty proper prefix of the
chunk list concatenates to exactly the records up to and including the
earlier one. -/
theorem gap_forces_chunk_boundary (gp : String → Option TS) (hours : Int)
    (df : PTable) (l₁ l₂ : List SensorRecord) (a b : SensorRecord)
    (hsplit : (validRows gp df).insertionSort recLE = l₁ ++ a :: b :: l₂)
    (hgap : gapThreshold < key b - key a) :
    ∃ n, 0 < n ∧ n < ((chunkCsvData gp hours df).2).length ∧
      (((chunkCsvData gp hours df).2).take n).flatten = l₁ ++ [a] := by
  have hne : validRows gp df ≠ [] := by
    intro h0
    rw [h0] at hsplit
    simp [List.insertionSort] at hsplit
  rw [chunkCsvData_snd]
  have hj := chunkFromValid_flatten (hours * 3600) (validRows gp df) hne
  refine flatten_boundary _ l₁ l₂ a b
    (fun c hc => (chunkFromValid_mem _ _ c hc).2.2) (by rw [hj, hsplit]) ?_
  unfold gapOK
  omega

/-- Witness for C4 at two records two hours apart under a 24-hour window. -/
theorem gap_forces_chunk_boundary_witness :
    (validRows (fun _ => none) demoGap).insertionSort recLE
        = [] ++ gapRecA :: gapRecB :: []
    ∧ gapThreshold < key gapRecB - key gapRecA
    ∧ ∃ n, 0 < n ∧ n < ((chunkCsvData (fun _ => none) 24 demoGap).2).length ∧
        (((chunkCsvData (fun _ => none) 24 demoGap).2).take n).flatten
          = [] ++ [gapRecA] :=
  ⟨by decide, by decide,
   gap_forces_chunk_boundary (fun _ => none) 24 demoGap [] [] gapRecA gapRecB
     (by decide) (by decide)⟩

/-- Claim C9 (amended): when the caller's timestamp column already has
datetime dtype — as on every frame the reader produces — `chunk_csv_data`
leaves the caller's frame unchanged; only a frame with a non-datetime
timestamp column is converted in place. -/
theorem chunker_leaves_datetime_frame_unchanged (gp : String → Option TS)
    (hours : Int) (df : PTable) (h : df.tsIsDatetime = true) :
    (chunkCsvData gp hours df).1 = df := by
  unfold chunkCsvData
  split
  · rfl
  · simp only [h, if_true]
    split
    · rfl
    · cases List.insertionSort recLE
        (df.rows.filter fun r => !isNaTCell r.timestamp) <;> rfl

/-- Witness for the amended C9 at a concrete datetime-typed frame. -/
theorem chunker_leaves_datetime_frame_unchanged_witness :
    demo13.tsIsDatetime = true
    ∧ (chunkCsvData (fun _ => none) 24 demo13).1 = demo13 :=
  ⟨by decide, chunker_leaves_datetime_frame_unchanged (fun _ => none) 24
    demo13 (by decide)⟩

/-- Counterexample to C9 as stated: on a frame whose timestamp column is
not datetime dtype (raw strings), `chunk_csv_data` writes the converted
timestamp column into the caller's frame — the caller's table is changed. -/
theorem chunker_mutates_object_dtype_frame :
    (chunkCsvData (fun _ => none) 24 demoRawTable).1 ≠ demoRawTable := by
  decide

/-- Claim C5 (amended): the statistics include the rssi aggregates, and the
description renders the signal-quality section, exactly when the chunk's
maximum rssi is nonzero — equivalently, when some record has strictly
positive rssi or every record has strictly negative rssi; the snr
aggregates appear in the statistics exactly when the analogous condition
holds for snr, and the snr lines of the description additionally require
the rssi condition (the snr test is nested inside the rssi test there). -/
theorem signal_presence_iff_nonzero_max (c : List SensorRecord)
    (hne : c ≠ []) :
    (((calculateStatistics c).lookup "rssi_mean").isSome ↔
        (∃ r ∈ c, 0 < r.rssi) ∨ ∀ r ∈ c, r.rssi < 0)
    ∧ (((calculateStatistics c).lookup "snr_mean").isSome ↔
        (∃ r ∈ c, 0 < r.snr) ∨ ∀ r ∈ c, r.snr < 0)
    ∧ (descHasSignalSection c = true ↔
        (∃ r ∈ c, 0 < r.rssi) ∨ ∀ r ∈ c, r.rssi < 0)
    ∧ (descHasSnrLines c = true ↔
        (((∃ r ∈ c, 0 < r.rssi) ∨ ∀ r ∈ c, r.rssi < 0)
          ∧ ((∃ r ∈ c, 0 < r.snr) ∨ ∀ r ∈ c, r.snr < 0))) := by
  have hr := pyMaxI_ne_zero_iff (fun r => r.rssi) c hne
  have hs := pyMaxQ_ne_zero_iff (fun r => r.snr) c hne
  refine ⟨?_, ?_, ?_, ?_⟩
  · rw [calcStats_lookup_rssi_mean, ← hr]
    by_cases h : pyMaxI (c.map fun r => r.rssi) ≠ 0 <;> simp [h]
  · rw [calcStats_lookup_snr_mean, ← hs]
    by_cases h : pyMaxQ (c.map fun r => r.snr) ≠ 0 <;> simp [h]
  · rw [← hr]
    simp [descHasSignalSection]
  · rw [← hr, ← hs]
    simp [descHasSnrLines, descHasSignalSection]

/-- Witness for the amended C5 at a concrete two-record chunk. -/
theorem signal_presence_iff_nonzero_max_witness :
    demoC5 ≠ []
    ∧ ((((calculateStatistics demoC5).lookup "rssi_mean").isSome ↔
          (∃ r ∈ demoC5, 0 < r.rssi) ∨ ∀ r ∈ demoC5, r.rssi < 0)
        ∧ (((calculateStatistics demoC5).lookup "snr_mean").isSome ↔
            (∃ r ∈ demoC5, 0 < r.snr) ∨ ∀ r ∈ demoC5, r.snr < 0)
        ∧ (descHasSignalSection demoC5 = true ↔
            (∃ r ∈ demoC5, 0 < r.rssi) ∨ ∀ r ∈ demoC5, r.rssi < 0)
        ∧ (descHasSnrLines demoC5 = true ↔
            (((∃ r ∈ demoC5, 0 < r.rssi) ∨ ∀ r ∈ demoC5, r.rssi < 0)
              ∧ ((∃ r ∈ demoC5, 0 < r.snr) ∨ ∀ r ∈ demoC5, r.snr < 0)))) :=
  ⟨by decide, signal_presence_iff_nonzero_max demoC5 (by decide)⟩

/-- Counterexample to C5 as stated: a chunk holding one genuinely negative
rssi/snr reading and one default zero reading has records with nonzero rssi
and nonzero snr, yet the column maxima are 0, so neither the rssi nor the
snr aggregates are included and the signal section is not rendered. -/
theorem signal_presence_counterexample :
    (∃ r ∈ demoC5, r.rssi ≠ 0)
    ∧ (∃ r ∈ demoC5, r.snr ≠ 0)
    ∧ (calculateStatistics demoC5).lookup "rssi_mean" = none
    ∧ (calculateStatistics demoC5).lookup "snr_mean" = none
    ∧ descHasSignalSection demoC5 = false := by decide

/-- Claim C2 (code bug): `calculate_statistics` stores the chunk's record
count under the key `count`, but `chunks_to_documents` reads the key
`reading_count` with default 0, so the flattened metadata's reading count
is 0 for a chunk of 2 records (indeed for every chunk) instead of the
chunk's record count. -/
theorem reading_count_metadata_is_zero :
    (calculateStatistics demoC2).lookup "count" = some (.i 2)
    ∧ (calculateStatistics demoC2).lookup "reading_count" = none
    ∧ (chunksToDocuments [demoC2chunk]).map (fun m => m.reading_count)
        = [some 0] := by decide

/-- Time-only parsing anchors the calendar date at 1900-01-01. -/
theorem parseTimeOnly_anchor (s : String) (t : TS)
    (h : parseTimeOnly s = some t) : t.y = 1900 ∧ t.mo = 1 ∧ t.d = 1 := by
  unfold parseTimeOnly at h
  split at h
  · split at h
    · split at h
      · injection h with h1
        subst h1
        exact ⟨rfl, rfl, rfl⟩
      · simp at h
    · simp at h
  · simp at h

/-- Claim C6 (amended): the reader resolves the calendar date solely from
the `YYYY-MM-DD` pattern in the file name (there is no caller-supplied date
parameter): the reconciled rows are the normalized rows with each timestamp
combined with `extract_date_from_filename`'s result; and when the file name
yields no date, every successfully reconciled timestamp is anchored at the
fixed placeholder date 1900-01-01 — not the current system date. -/
theorem date_resolution_from_filename (pf : String → Option ℚ)
    (pi : String → Option Int) (path : String) (df0 df : PTable)
    (hread : readMixedFormatCsv pf pi path (.parsed df0) = some df) :
    df.rows = (normalizeCsvColumns df0).rows.map (fun r =>
        { r with timestamp :=
            combineCell (extractDateFromFilename path) r.timestamp })
    ∧ (extractDateFromFilename path = none →
        ∀ r ∈ df.rows, ∀ t : TS, r.timestamp = .dt (some t) →
          t.y = 1900 ∧ t.mo = 1 ∧ t.d = 1) := by
  simp only [readMixedFormatCsv] at hread
  split at hread
  · simp at hread
  · split at hread
    case _ out hcomb =>
      injection hread with h1
      subst h1
      unfold combineDateAndTime at hcomb
      split at hcomb
      · injection hcomb with h2
        subst h2
        refine ⟨rfl, fun hnone r hr t ht => ?_⟩
        simp only [List.mem_map] at hr
        obtain ⟨r0, -, rfl⟩ := hr
        rw [hnone] at ht
        simp only [combineCell] at ht
        injection ht with h3
        exact parseTimeOnly_anchor _ _ h3
      · simp at hcomb
    case _ hcomb =>
      simp at hread

/-- Witness for the amended C6 at a concrete no-date file name. -/
theorem date_resolution_from_filename_witness :
    readMixedFormatCsv (fun _ => none) (fun _ => none) "lora_data.csv"
        (.parsed demoRawTable) = some demoC6out
    ∧ (demoC6out.rows = (normalizeCsvColumns demoRawTable).rows.map (fun r =>
          { r with timestamp := combineCell (extractDateFromFilename "lora_data.csv") r.timestamp })
        ∧ (extractDateFromFilename "lora_data.csv" = none →
            ∀ r ∈ demoC6out.rows, ∀ t : TS, r.timestamp = .dt (some t) →
              t.y = 1900 ∧ t.mo = 1 ∧ t.d = 1)) :=
  ⟨by decide, date_resolution_from_filename (fun _ => none) (fun _ => none)
    "lora_data.csv" demoRawTable demoC6out (by decide)⟩

/-- Counterexample to C6 as stated: run on a day whose system date is
2026-10-12, a file with no date in its name still reconciles to the fixed
anchor 1900-01-01, so the claimed current-system-date fallback does not
hold. -/
theorem system_date_fallback_refuted : ¬ specC6Fallback 2026 10 12 := by
  intro hspec
  have h := hspec (fun _ => none) (fun _ => none) "lora_data.csv"
    demoRawTable demoC6out (by decide) (by decide) demoC6row (by decide)
    ⟨1900, 1, 1, 10, 0, 0⟩ (by decide)
  exact absurd h.1 (by decide)

/-- Claim C7: when any of the five required columns is missing,
normalization returns the empty frame, and the file-level read and the
per-file processing surface this as no usable data (`None` / an empty chunk
list) — the internal `KeyError` is caught, no exception escapes. -/
theorem missing_required_column_yields_no_data (pf : String → Option ℚ)
    (pi : String → Option Int) (gp : String → Option TS) (path : String)
    (df : PTable) (hours : Int)
    (hmiss : ∃ c ∈ requiredColumns, df.cols.contains c = false) :
    normalizeCsvColumns df = emptyPTable
    ∧ readMixedFormatCsv pf pi path (.parsed df) = none
    ∧ processCsvFile pf pi gp path (.parsed df) hours = [] := by
  have hnorm : normalizeCsvColumns df = emptyPTable := by
    unfold normalizeCsvColumns
    rw [if_neg]
    intro hall
    obtain ⟨c, hc, hfalse⟩ := hmiss
    have hcontains := List.all_eq_true.mp hall c hc
    rw [hfalse] at hcontains
    cases hcontains
  have hread : readMixedFormatCsv pf pi path (.parsed df) = none := by
    simp only [readMixedFormatCsv]
    by_cases hre : df.rows.isEmpty
    · simp [hre]
    · rw [if_neg (by simpa using hre), hnorm]
      rfl
  refine ⟨hnorm, hread, ?_⟩
  unfold processCsvFile
  rw [hread]

/-- Witness for C7 at a frame missing the `humidity` column. -/
theorem missing_required_column_yields_no_data_witness :
    (∃ c ∈ requiredColumns, demoMissingCol.cols.contains c = false)
    ∧ (normalizeCsvColumns demoMissingCol = emptyPTable
        ∧ readMixedFormatCsv (fun _ => none) (fun _ => none) "x.csv"
            (.parsed demoMissingCol) = none
        ∧ processCsvFile (fun _ => none) (fun _ => none) (fun _ => none)
            "x.csv" (.parsed demoMissingCol) 24 = []) :=
  ⟨by decide, missing_required_column_yields_no_data (fun _ => none)
    (fun _ => none) (fun _ => none) "x.csv" demoMissingCol 24 (by decide)⟩

/-- The four filtered chunk-mean series inside `get_data_summary` are the
`chunkMeansOf` series for the four metric keys. -/
theorem summary_series_eq (cs : List ProcessedChunk) :
    (((cs.filterMap fun c =>
        if c.statistics.isEmpty then none
        else some
          (qOfSVal ((c.statistics.lookup "temperature_mean").getD (.q 0)),
           qOfSVal ((c.statistics.lookup "humidity_mean").getD (.q 0)),
           qOfSVal ((c.statistics.lookup "pressure_mean").getD (.q 0)),
           qOfSVal ((c.statistics.lookup "battery_mean").getD (.q 0)))).map
      fun x => x.1).filter fun x => decide (x ≠ 0))
        = chunkMeansOf cs "temperature_mean"
    ∧ (((cs.filterMap fun c =>
        if c.statistics.isEmpty then none
        else some
          (qOfSVal ((c.statistics.lookup "temperature_mean").getD (.q 0)),
           qOfSVal ((c.statistics.lookup "humidity_mean").getD (.q 0)),
           qOfSVal ((c.statistics.lookup "pressure_mean").getD (.q 0)),
           qOfSVal ((c.statistics.lookup "battery_mean").getD (.q 0)))).map
      fun x => x.2.1).filter fun x => decide (x ≠ 0))
        = chunkMeansOf cs "humidity_mean"
    ∧ (((cs.filterMap fun c =>
        if c.statistics.isEmpty then none
        else some
          (qOfSVal ((c.statistics.lookup "temperature_mean").getD (.q 0)),
           qOfSVal ((c.statistics.lookup "humidity_mean").getD (.q 0)),
           qOfSVal ((c.statistics.lookup "pressure_mean").getD (.q 0)),
           qOfSVal ((c.statistics.lookup "battery_mean").getD (.q 0)))).map
      fun x => x.2.2.1).filter fun x => decide (x ≠ 0))
        = chunkMeansOf cs "pressure_mean"
    ∧ (((cs.filterMap fun c =>
        if c.statistics.isEmpty then none
        else some
          (qOfSVal ((c.statistics.lookup "temperature_mean").getD (.q 0)),
           qOfSVal ((c.statistics.lookup "humidity_mean").getD (.q 0)),
           qOfSVal ((c.statistics.lookup "pressure_mean").getD (.q 0)),
           qOfSVal ((c.statistics.lookup "battery_mean").getD (.q 0)))).map
      fun x => x.2.2.2).filter fun x => decide (x ≠ 0))
        = chunkMeansOf cs "battery_mean" := by
  refine ⟨?_, ?_, ?_, ?_⟩ <;>
  · unfold chunkMeansOf
    congr 1
    rw [List.map_filterMap]
    refine congrArg (fun f => List.filterMap f cs) (funext fun c => ?_)
    by_cases h : c.statistics.isEmpty <;> simp [h]

/-- What `get_data_summary` reports when every metric retains a nonzero
chunk-level mean: the chunk count, and min/max/mean of each filtered
series. -/
theorem getDataSummary_spec (cs : List ProcessedChunk)
    (ht : chunkMeansOf cs "temperature_mean" ≠ [])
    (hh : chunkMeansOf cs "humidity_mean" ≠ [])
    (hp : chunkMeansOf cs "pressure_mean" ≠ [])
    (hb : chunkMeansOf cs "battery_mean" ≠ []) :
    ∃ o : OverallStats,
      getDataSummary cs = .ok (.summary cs.length (some o))
      ∧ ReportsAgg (chunkMeansOf cs "temperature_mean") o.tMin o.tMax o.tMean
      ∧ ReportsAgg (chunkMeansOf cs "humidity_mean") o.hMin o.hMax o.hMean
      ∧ ReportsAgg (chunkMeansOf cs "pressure_mean") o.pMin o.pMax o.pMean
      ∧ ReportsAgg (chunkMeansOf cs "battery_mean") o.bMin o.bMax o.bMean := by
  have hcs : cs.isEmpty = false := by
    cases cs with
    | nil => exact absurd rfl ht
    | cons c cs => rfl
  obtain ⟨e1, e2, e3, e4⟩ := summary_series_eq cs
  obtain ⟨t0, tl, htl⟩ : ∃ a l, chunkMeansOf cs "temperature_mean" = a :: l := by
    cases h : chunkMeansOf cs "temperature_mean" with
    | nil => exact absurd h ht
    | cons a l => exact ⟨a, l, rfl⟩
  obtain ⟨h0, hl, hhl⟩ : ∃ a l, chunkMeansOf cs "humidity_mean" = a :: l := by
    cases h : chunkMeansOf cs "humidity_mean" with
    | nil => exact absurd h hh
    | cons a l => exact ⟨a, l, rfl⟩
  obtain ⟨p0, pl, hpl⟩ : ∃ a l, chunkMeansOf cs "pressure_mean" = a :: l := by
    cases h : chunkMeansOf cs "pressure_mean" with
    | nil => exact absurd h hp
    | cons a l => exact ⟨a, l, rfl⟩
  obtain ⟨b0, bl, hbl⟩ : ∃ a l, chunkMeansOf cs "battery_mean" = a :: l := by
    cases h : chunkMeansOf cs "battery_mean" with
    | nil => exact absurd h hb
    | cons a l => exact ⟨a, l, rfl⟩
  simp only [getDataSummary, hcs, Bool.false_eq_true, if_false, e1, e2, e3,
    e4, htl, hhl, hpl, hbl]
  rw [if_neg (by simp)]
  simp only [pyMinQE, pyMaxQE, bind, Except.bind, pure, Except.pure]
  refine ⟨⟨tl.foldl min t0, tl.foldl max t0, meanQ (t0 :: tl),
    hl.foldl min h0, hl.foldl max h0, meanQ (h0 :: hl),
    pl.foldl min p0, pl.foldl max p0, meanQ (p0 :: pl),
    bl.foldl min b0, bl.foldl max b0, meanQ (b0 :: bl)⟩, rfl, ?_, ?_, ?_, ?_⟩
  · obtain ⟨hmem, hlb⟩ := foldl_min_spec t0 tl
    obtain ⟨hmem2, hub⟩ := foldl_max_spec t0 tl
    exact ⟨hmem, hlb, hmem2, hub,
      div_mul_cancel₀ _ (Nat.cast_ne_zero.mpr (by simp) : ((t0 :: tl).length : ℚ) ≠ 0)⟩
  · obtain ⟨hmem, hlb⟩ := foldl_min_spec h0 hl
    obtain ⟨hmem2, hub⟩ := foldl_max_spec h0 hl
    exact ⟨hmem, hlb, hmem2, hub,
      div_mul_cancel₀ _ (Nat.cast_ne_zero.mpr (by simp) : ((h0 :: hl).length : ℚ) ≠ 0)⟩
  · obtain ⟨hmem, hlb⟩ := foldl_min_spec p0 pl
    obtain ⟨hmem2, hub⟩ := foldl_max_spec p0 pl
    exact ⟨hmem, hlb, hmem2, hub,
      div_mul_cancel₀ _ (Nat.cast_ne_zero.mpr (by simp) : ((p0 :: pl).length : ℚ) ≠ 0)⟩
  · obtain ⟨hmem, hlb⟩ := foldl_min_spec b0 bl
    obtain ⟨hmem2, hub⟩ := foldl_max_spec b0 bl
    exact ⟨hmem, hlb, hmem2, hub,
      div_mul_cancel₀ _ (Nat.cast_ne_zero.mpr (by simp) : ((b0 :: bl).length : ℚ) ≠ 0)⟩

/-- Claim C8 (amended): for a chunk list on which every metric retains at
least one nonzero chunk-level mean, the summary reports the total chunk
count and, for each of temperature/humidity/pressure/battery, the minimum,
maximum and mean of the *nonzero* chunk-level means (zero chunk means are
discarded as failed extractions before aggregating); no total reading
count is reported. -/
theorem summary_aggregates_nonzero_chunk_means (cs : List ProcessedChunk)
    (ht : chunkMeansOf cs "temperature_mean" ≠ [])
    (hh : chunkMeansOf cs "humidity_mean" ≠ [])
    (hp : chunkMeansOf cs "pressure_mean" ≠ [])
    (hb : chunkMeansOf cs "battery_mean" ≠ []) :
    ∃ o : OverallStats,
      getDataSummary cs = .ok (.summary cs.length (some o))
      ∧ ReportsAgg (chunkMeansOf cs "temperature_mean") o.tMin o.tMax o.tMean
      ∧ ReportsAgg (chunkMeansOf cs "humidity_mean") o.hMin o.hMax o.hMean
      ∧ ReportsAgg (chunkMeansOf cs "pressure_mean") o.pMin o.pMax o.pMean
      ∧ ReportsAgg (chunkMeansOf cs "battery_mean") o.bMin o.bMax o.bMean :=
  getDataSummary_spec cs ht hh hp hb

/-- Witness for the amended C8 at two concrete processed chunks. -/
theorem summary_aggregates_nonzero_chunk_means_witness :
    chunkMeansOf demoC8 "temperature_mean" ≠ []
    ∧ chunkMeansOf demoC8 "humidity_mean" ≠ []
    ∧ chunkMeansOf demoC8 "pressure_mean" ≠ []
    ∧ chunkMeansOf demoC8 "battery_mean" ≠ []
    ∧ ∃ o : OverallStats,
        getDataSummary demoC8 = .ok (.summary demoC8.length (some o))
        ∧ ReportsAgg (chunkMeansOf demoC8 "temperature_mean")
            o.tMin o.tMax o.tMean
        ∧ ReportsAgg (chunkMeansOf demoC8 "humidity_mean")
            o.hMin o.hMax o.hMean
        ∧ ReportsAgg (chunkMeansOf demoC8 "pressure_mean")
            o.pMin o.pMax o.pMean
        ∧ ReportsAgg (chunkMeansOf demoC8 "battery_mean")
            o.bMin o.bMax o.bMean :=
  ⟨by decide, by decide, by decide, by decide,
   summary_aggregates_nonzero_chunk_means demoC8 (by decide) (by decide)
     (by decide) (by decide)⟩

/-- Counterexample to C8 as stated: over two chunks whose chunk-level
temperature means are 0 and 5, the minimum across all chunk-level
temperature means is 0, but the summary reports a temperature minimum of 5
— the zero mean is filtered out before aggregating (and no total reading
count exists anywhere in the `SummaryOut` the function reports). -/
theorem summary_skips_zero_means :
    (demoC8.map fun c =>
        qOfSVal ((c.statistics.lookup "temperature_mean").getD (.q 0)))
      = [0, 5]
    ∧ ∃ o : OverallStats,
        getDataSummary demoC8 = .ok (.summary 2 (some o))
        ∧ o.tMin = 5
        ∧ o.tMin ≠ pyMinQ (demoC8.map fun c =>
            qOfSVal ((c.statistics.lookup "temperature_mean").getD (.q 0))) := by
  refine ⟨by decide, ?_⟩
  obtain ⟨o, ho, hT, -, -, -⟩ :=
    getDataSummary_spec demoC8 (by decide) (by decide) (by decide) (by decide)
  have htmin : o.tMin = 5 := by
    have hmem := hT.1
    rw [show chunkMeansOf demoC8 "temperature_mean" = [5] from by decide]
      at hmem
    simpa using hmem
  refine ⟨o, ho, htmin, ?_⟩
  rw [htmin, show pyMinQ (demoC8.map fun c =>
    qOfSVal ((c.statistics.lookup "temperature_mean").getD (.q 0))) = 0
    from by decide]
  decide

/-- Claim C10: a fallback-parsed row with at least 11 fields stores its
sixth field as the charging value verbatim (no canonicalization — the
fallback parser's output is reconciled directly, never normalized, and
reconciliation only rewrites timestamps), so a raw truthy encoding such as
`1` survives; such a record makes `detect_solar_data` report solar, while
contributing nothing to the charging-active count, which counts only the
canonical `Y`. -/
theorem fallback_solar_charging_verbatim
    (pf : String → Option ℚ) (pi : String → Option Int)
    (fields : List String) (r : SensorRecord)
    (h11 : 11 ≤ fields.length) (hr : parseLine pf pi fields = some r) :
    r.charging = fields.getD 5 ""
    ∧ (∀ path lines df,
        readMixedFormatCsv pf pi path (.parserError lines) = some df →
        df.rows.map (fun x => x.charging) =
          ((parseMixedFormatLineByLine pf pi lines).getD
            emptyPTable).rows.map (fun x => x.charging))
    ∧ (∀ c, r ∈ c → r.charging = "1" → (detectSolarData c).1 = true)
    ∧ (r.charging = "1" →
        ∀ c : List SensorRecord,
          ((r :: c).filter fun x => x.charging = "Y").length =
            (c.filter fun x => x.charging = "Y").length) := by
  have hchg : r.charging = fields.getD 5 "" := by
    unfold parseLine at hr
    rw [if_neg (by omega)] at hr
    split at hr
    case _ =>
      rw [if_neg (by omega), if_neg (by omega), if_pos h11] at hr
      split at hr
      case _ =>
        injection hr with h1
        subst h1
        rfl
      case _ => simp at hr
    case _ => simp at hr
  refine ⟨hchg, ?_, ?_, ?_⟩
  · intro path lines df hread
    simp only [readMixedFormatCsv] at hread
    split at hread
    case _ => simp at hread
    case _ df0 hparse =>
      split at hread
      case _ out hcomb =>
        injection hread with h1
        subst h1
        rw [hparse]
        unfold combineDateAndTime at hcomb
        split at hcomb
        · injection hcomb with h2
          subst h2
          simp [List.map_map]
        · simp at hcomb
      case _ => simp at hread
  · intro c hc h1
    have hne : ¬(c.isEmpty = true) := by
      simp [List.isEmpty_iff]
      exact List.ne_nil_of_mem hc
    have hcond : c.any (fun x => x.charging ≠ "N")
        ∨ c.any (fun x => 0 < x.interval) ∨ c.any (fun x => 0 < x.uptime) := by
      refine Or.inl ?_
      rw [List.any_eq_true]
      exact ⟨r, hc, by rw [h1]; decide⟩
    unfold detectSolarData
    rw [if_neg hne, if_pos hcond]
  · intro h1 c
    simp [List.filter_cons, h1]

/-- Witness for C10 at a concrete 11-field row with charging field `1`. -/
theorem fallback_solar_charging_verbatim_witness :
    11 ≤ demoFields11.length
    ∧ parseLine (fun _ => some 0) (fun _ => some 0) demoFields11
        = some demoC10rec
    ∧ (demoC10rec.charging = demoFields11.getD 5 ""
        ∧ (∀ path lines df,
            readMixedFormatCsv (fun _ => some 0) (fun _ => some 0) path
              (.parserError lines) = some df →
            df.rows.map (fun x => x.charging) =
              ((parseMixedFormatLineByLine (fun _ => some 0)
                (fun _ => some 0) lines).getD emptyPTable).rows.map
                  (fun x => x.charging))
        ∧ (∀ c, demoC10rec ∈ c → demoC10rec.charging = "1" →
            (detectSolarData c).1 = true)
        ∧ (demoC10rec.charging = "1" →
            ∀ c : List SensorRecord,
              ((demoC10rec :: c).filter fun x => x.charging = "Y").length =
                (c.filter fun x => x.charging = "Y").length)) :=
  ⟨by decide, by decide,
   fallback_solar_charging_verbatim (fun _ => some 0) (fun _ => some 0)
     demoFields11 demoC10rec (by decide) (by decide)⟩
